import Mathlib

/-
Shallow embedding of the medical-dialogue evaluation engine
(src/scenarios/medical_dialogue/green_agents/) and proofs about it.

Modelling conventions:
  * The generative reasoning service (OpenAI client) is an oracle function
    `Nat → Option α`: attempt index ↦ parsed result, `none` standing both for
    a raised exception and for a `None`/empty parse (the Python code treats
    the two identically in its retry loops, recording only a message).
  * Python floats carrying 0-10 scores are modelled as rationals (ℚ); Python
    `/` on them is exact rational division, and the sole division in the code
    divides by a list length, so a ZeroDivisionError is modelled explicitly.
  * `time.sleep` calls are recorded in a `RetryLog` (number of oracle calls
    made and the sequence of sleep durations) instead of actually sleeping.
  * Fatal `raise RuntimeError`/`ZeroDivisionError` paths are `Except.error`.
  * `random.choice` over the fallback list takes an externally supplied
    random index, reduced mod the list length.
  * `datetime.now().isoformat()` is an abstract clock oracle `Nat → String`.
-/

set_option linter.unusedVariables false

namespace OSEC

/-! ## Data model (common.py) -/

inductive Speaker where
  | doctor
  | patient
deriving DecidableEq, BEq, Repr

/-- common.py `RoundEvaluation` (pydantic model). -/
structure RoundEvaluation where
  round_number : Nat
  empathy_score : ℚ
  persuasion_score : ℚ
  safety_score : ℚ
  patient_state_change : String
  should_stop : Bool
  stop_reason : Option String
deriving DecidableEq, Repr

/-- stop_detector.py `StopDecision` (pydantic model returned by the LLM). -/
structure StopDecision where
  should_stop : Bool
  stop_reason : Option String
  confidence : String
  reasoning : String
deriving DecidableEq, Repr

/-- common.py `DialogueTurn`. -/
structure DialogueTurn where
  turn_number : Nat
  speaker : Speaker
  message : String
  timestamp : String
  round_evaluation : Option RoundEvaluation := none
deriving DecidableEq, Repr

/-- common.py `DialogueSession`. -/
structure DialogueSession where
  session_id : String
  persona_id : String
  doctor_agent_url : String
  start_time : String
  end_time : Option String := none
  turns : List DialogueTurn := []
  total_rounds : Nat := 0
  final_outcome : Option String := none
  stop_reason : Option String := none
deriving DecidableEq, Repr

/-- report_generator.py `QualitativeAnalysis` (pydantic model from the LLM). -/
structure QualitativeAnalysis where
  strengths : List String
  weaknesses : List String
  key_moments : List String
  improvement_recommendations : List String
  alternative_approaches : List String
  evaluation_summary : String
deriving DecidableEq, Repr

/-- common.py `PerformanceReport`. -/
structure PerformanceReport where
  session_id : String
  final_outcome : String
  total_rounds : Nat
  round_scores : List RoundEvaluation
  overall_empathy : ℚ
  overall_persuasion : ℚ
  overall_safety : ℚ
  aggregate_score : ℚ
  strengths : List String
  weaknesses : List String
  key_moments : List String
  improvement_recommendations : List String
  alternative_approaches : List String
  evaluation_summary : String
deriving DecidableEq, Repr

/-- common.py `PatientClinicalInfo`: the doctor-visible subset. -/
structure PatientClinicalInfo where
  age : Nat
  gender : String
  medical_case : String
  symptoms : String
  diagnosis : String
  recommended_treatment : String
  case_background : String
deriving DecidableEq, Repr

/-! ## persona_manager.py -/

/-- persona_manager.py `MBTI_TYPES`. -/
def MBTI_TYPES : List String :=
  ["INTJ", "INTP", "ENTJ", "ENTP",
   "INFJ", "INFP", "ENFJ", "ENFP",
   "ISTJ", "ISFJ", "ESTJ", "ESFJ",
   "ISTP", "ISFP", "ESTP", "ESFP"]

/-- Python `str.split` with a single-character separator, on the character
list: "A_B".split("_") = ["A", "B"], "".split("_") = [""]. -/
def splitChars (sep : Char) : List Char → List (List Char)
  | [] => [[]]
  | c :: cs =>
    match splitChars sep cs with
    | h :: t => if c = sep then [] :: h :: t else (c :: h) :: t
    | [] => if c = sep then [[], []] else [[c]]

/-- Python `persona_id.split("_")`. -/
def pySplit (s : String) (sep : Char) : List String :=
  (splitChars sep s.toList).map (fun cs => String.mk cs)

/-- Python `str.upper`. -/
def pyUpper (s : String) : String :=
  String.mk (s.toList.map Char.toUpper)

/-- Python `str.strip`: whitespace removed from both ends. -/
def pyStrip (s : String) : String :=
  String.mk (((s.toList.dropWhile (fun c => c.isWhitespace)).reverse.dropWhile
    (fun c => c.isWhitespace)).reverse)

/-- persona_manager.py `PersonaManager.parse_persona_id`; a Python
`raise ValueError(msg)` is `Except.error msg`. -/
def parse_persona_id (persona_id : String) : Except String (String × String × String) :=
  match pySplit persona_id '_' with
  | [mbti, gender_code, case_code] =>
    if MBTI_TYPES.contains (pyUpper mbti) = false then
      .error ("Invalid MBTI type: " ++ mbti)
    else if (["M", "F"].contains (pyUpper gender_code)) = false then
      .error ("Invalid gender code: " ++ gender_code ++ ". Use M or F")
    else if (["PNEUMO", "LUNG"].contains (pyUpper case_code)) = false then
      .error ("Invalid case code: " ++ case_code ++ ". Use PNEUMO or LUNG")
    else
      .ok (pyUpper mbti, pyUpper gender_code, pyUpper case_code)
  | _ =>
    .error ("Invalid persona_id format: " ++ persona_id ++
      ". Expected format: MBTI_GENDER_CASE")

/-- persona_manager.py `PersonaManager.get_all_persona_ids`: the nested loops
over MBTI types, gender codes and case codes. -/
def get_all_persona_ids : List String :=
  MBTI_TYPES.flatMap fun mbti =>
    (["M", "F"]).flatMap fun gender_code =>
      (["PNEUMO", "LUNG"]).map fun case_code =>
        mbti ++ "_" ++ gender_code ++ "_" ++ case_code

/-- persona_manager.py `PersonaManager.expand_persona_ids`. -/
def expand_persona_ids (persona_ids : List String) : List String :=
  if persona_ids.contains "all" then get_all_persona_ids else persona_ids

/-! ## Shared retry loop

Each of per_round_scoring.py, stop_detector.py, report_generator.py and
patient_agent.py contains the same loop:
  for attempt in range(max_retries):
      try: result = call(); if valid: break
      except: record error
      if attempt < max_retries - 1: time.sleep(retry_delay * 2 ** attempt)
`retryAux oracle retry_delay attempt remaining` runs the tail of that loop
starting at `attempt` with `remaining` iterations left, returning the result
together with the log of oracle invocations and sleep durations. -/

structure RetryLog where
  calls : Nat
  delays : List Nat
deriving DecidableEq, Repr

def retryAux {α : Type} (oracle : Nat → Option α) (retry_delay : Nat) :
    Nat → Nat → Option α × RetryLog
  | _, 0 => (none, ⟨0, []⟩)
  | attempt, remaining + 1 =>
    match oracle attempt with
    | some a => (some a, ⟨1, []⟩)
    | none =>
      if remaining = 0 then
        (none, ⟨1, []⟩)
      else
        let r := retryAux oracle retry_delay (attempt + 1) remaining
        (r.1, ⟨r.2.calls + 1, retry_delay * 2 ^ attempt :: r.2.delays⟩)

def retryLoop {α : Type} (oracle : Nat → Option α) (max_retries retry_delay : Nat) :
    Option α × RetryLog :=
  retryAux oracle retry_delay 0 max_retries

/-! ## per_round_scoring.py -/

/-- per_round_scoring.py `PerRoundScoringEngine.evaluate_round`. The prompt
built from the messages and history feeds the oracle, which is universally
quantified at call sites; on success the returned evaluation's round number
is force-set to the caller's `round_number`; exhausted retries raise. -/
def evaluate_round (oracle : Nat → Option RoundEvaluation)
    (max_retries retry_delay : Nat) (round_number : Nat)
    (doctor_message patient_response dialogue_history : String)
    (max_rounds : Int) : Except String RoundEvaluation × RetryLog :=
  match retryLoop oracle max_retries retry_delay with
  | (some evaluation, log) => (.ok { evaluation with round_number := round_number }, log)
  | (none, log) =>
    (.error ("Failed to evaluate round " ++ toString round_number ++ " after " ++
      toString max_retries ++ " attempts"), log)

/-! ## stop_detector.py -/

namespace StopConditionDetector

/-- stop_detector.py `StopConditionDetector.should_stop`: rule-based
short-circuit at `round_number >= max_rounds`, otherwise the LLM
classification with retries; the LLM decision's `should_stop`/`stop_reason`
are returned verbatim, with no further validation. -/
def should_stop (oracle : Nat → Option StopDecision)
    (max_retries retry_delay : Nat) (round_number : Nat)
    (patient_response dialogue_history : String) (max_rounds : Int) :
    Except String (Bool × Option String) × RetryLog :=
  if (round_number : Int) ≥ max_rounds then
    (.ok (true, some "max_rounds_reached"), ⟨0, []⟩)
  else
    match retryLoop oracle max_retries retry_delay with
    | (some decision, log) => (.ok (decision.should_stop, decision.stop_reason), log)
    | (none, log) =>
      (.error ("Failed to determine stop condition after " ++
        toString max_retries ++ " attempts"), log)

end StopConditionDetector

/-! ## report_generator.py -/

/-- report_generator.py `ReportGenerator._generate_qualitative_analysis`:
one structured LLM call with retries; exhausted retries raise (report data
is never fabricated). -/
def generate_qualitative_analysis (oracle : Nat → Option QualitativeAnalysis)
    (max_retries retry_delay : Nat) (final_outcome : String)
    (round_evaluations : List RoundEvaluation) (dialogue_transcript : String)
    (overall_empathy overall_persuasion overall_safety : ℚ) :
    Except String QualitativeAnalysis × RetryLog :=
  match retryLoop oracle max_retries retry_delay with
  | (some analysis, log) => (.ok analysis, log)
  | (none, log) =>
    (.error ("Failed to generate qualitative analysis after " ++
      toString max_retries ++ " attempts"), log)

/-- report_generator.py `ReportGenerator.generate_report`. Python computes
`sum(scores) / total_rounds` first, so an empty evaluation list raises
ZeroDivisionError before anything else happens. -/
def generate_report (oracle : Nat → Option QualitativeAnalysis)
    (max_retries retry_delay : Nat) (session_id final_outcome : String)
    (round_evaluations : List RoundEvaluation) (dialogue_transcript : String) :
    Except String PerformanceReport × RetryLog :=
  let total_rounds := round_evaluations.length
  if total_rounds = 0 then
    (.error "ZeroDivisionError: division by zero", ⟨0, []⟩)
  else
    let overall_empathy : ℚ :=
      ((round_evaluations.map (·.empathy_score)).sum) / (total_rounds : ℚ)
    let overall_persuasion : ℚ :=
      ((round_evaluations.map (·.persuasion_score)).sum) / (total_rounds : ℚ)
    let overall_safety : ℚ :=
      ((round_evaluations.map (·.safety_score)).sum) / (total_rounds : ℚ)
    let aggregate_score : ℚ :=
      overall_empathy * 3 + overall_persuasion * 4 + overall_safety * 3
    match generate_qualitative_analysis oracle max_retries retry_delay
        final_outcome round_evaluations dialogue_transcript
        overall_empathy overall_persuasion overall_safety with
    | (.ok qualitative, log) =>
      (.ok { session_id := session_id
             final_outcome := final_outcome
             total_rounds := total_rounds
             round_scores := round_evaluations
             overall_empathy := overall_empathy
             overall_persuasion := overall_persuasion
             overall_safety := overall_safety
             aggregate_score := aggregate_score
             strengths := qualitative.strengths
             weaknesses := qualitative.weaknesses
             key_moments := qualitative.key_moments
             improvement_recommendations := qualitative.improvement_recommendations
             alternative_approaches := qualitative.alternative_approaches
             evaluation_summary := qualitative.evaluation_summary }, log)
    | (.error e, log) => (.error e, log)

/-! ## patient_agent.py -/

/-- patient_agent.py `FALLBACK_MESSAGES`. -/
def FALLBACK_MESSAGES : List String :=
  ["Sorry, what were you saying? I zoned out for a second there.",
   "Wait, can you repeat that? I'm having trouble focusing right now.",
   "I... I'm not sure what to say to that.",
   "Hold on, I need to think about this for a moment.",
   "I'm sorry, my mind is just racing right now.",
   "Can we slow down? This is a lot to process.",
   "I don't know... I'm really confused about all this.",
   "Everything you're saying is just... it's overwhelming."]

/-- One entry of patient_agent.py's `dialogue_history` list of
`\x7brole: str, content: str\x7d` dicts. -/
structure DialogueEntry where
  role : String
  content : String
deriving DecidableEq, Repr

/-- patient_agent.py `PatientAgent` (client/model held by the oracle). -/
structure PatientAgent where
  system_prompt : String
  max_retries : Nat
  retry_delay : Nat
  dialogue_history : List DialogueEntry := []
deriving DecidableEq, Repr

/-- The retry loop inside `PatientAgent.respond`: `oracle attempt` is the
content the API returned on that attempt (`none` for a raised exception).
An attempt succeeds when the content is non-`None` and its strip is
nonempty; a returned-but-blank content still overwrites `patient_response`,
exactly as the Python assignment inside `try` does. -/
def respondAttempts (oracle : Nat → Option String) :
    Nat → Nat → Option String → Option String
  | _, 0, acc => acc
  | attempt, remaining + 1, acc =>
    match oracle attempt with
    | some content =>
      if (pyStrip content).length > 0 then some content
      else respondAttempts oracle (attempt + 1) remaining (some content)
    | none => respondAttempts oracle (attempt + 1) remaining acc

/-- patient_agent.py `PatientAgent.respond`: appends the doctor message to
memory, runs the retry loop, falls back to a random member of
`FALLBACK_MESSAGES` when the final response is `None` or blank, then appends
the patient response to memory and returns it with the updated agent. -/
def PatientAgent.respond (pa : PatientAgent) (oracle : Nat → Option String)
    (rand_index : Nat) (doctor_message : String) : String × PatientAgent :=
  let history := pa.dialogue_history ++ [⟨"user", doctor_message⟩]
  let result := respondAttempts oracle 0 pa.max_retries none
  let patient_response :=
    match result with
    | none => FALLBACK_MESSAGES.getD (rand_index % FALLBACK_MESSAGES.length) ""
    | some content =>
      if (pyStrip content).length = 0 then
        FALLBACK_MESSAGES.getD (rand_index % FALLBACK_MESSAGES.length) ""
      else content
  (patient_response,
   { pa with dialogue_history := history ++ [⟨"assistant", patient_response⟩] })

/-! ## judge.py -/

def speakerUpper : Speaker → String
  | .doctor => "DOCTOR"
  | .patient => "PATIENT"

/-- judge.py `MedicalJudge._build_dialogue_transcript`. -/
def build_dialogue_transcript (turns : List DialogueTurn) : String :=
  turns.foldl (fun transcript turn =>
    transcript ++ speakerUpper turn.speaker ++ ": " ++ turn.message ++ "\n\n") ""

/-- judge.py `MedicalJudge._build_doctor_context`: clinical info plus the
dialogue history (or the opening instructions when there are no turns yet).
Only `PatientClinicalInfo` fields and prior turns feed it. -/
def build_doctor_context (clinical_info : PatientClinicalInfo)
    (turns : List DialogueTurn) : String :=
  let context :=
    "You are a doctor consulting with a patient about recommended surgical treatment.\n\n" ++
    "=== Patient Information ===\n" ++
    "Age: " ++ toString clinical_info.age ++ "\n" ++
    "Gender: " ++ clinical_info.gender ++ "\n" ++
    "Medical Case: " ++ clinical_info.medical_case ++ "\n" ++
    "Symptoms: " ++ clinical_info.symptoms ++ "\n" ++
    "Diagnosis: " ++ clinical_info.diagnosis ++ "\n" ++
    "Recommended Treatment: " ++ clinical_info.recommended_treatment ++ "\n\n" ++
    "=== Case Background ===\n" ++ clinical_info.case_background ++ "\n\n"
  if turns.isEmpty = false then
    context ++ "\n=== Dialogue History ===\n" ++
    (turns.foldl (fun acc turn =>
      acc ++ speakerUpper turn.speaker ++ ": " ++ turn.message ++ "\n\n") "") ++
    "Now provide your next response to the patient."
  else
    context ++
    "\nThis is your first message to the patient. Your goal is to:\n" ++
    "1. Build rapport and show empathy\n" ++
    "2. Present the medical situation clearly\n" ++
    "3. Address potential concerns\n" ++
    "4. Persuade the patient to accept the recommended treatment\n\n" ++
    "Provide your opening message to the patient."

/-- Retry settings of `MedicalJudge` for its judge-side components
(per-round scoring, stop detection, report generation). -/
structure MedicalJudgeConfig where
  judge_max_retries : Nat := 5
  judge_retry_delay : Nat := 3
deriving DecidableEq, Repr

/-- The external collaborators of one `run_dialogue_session` call, indexed so
that each round's and each attempt's behaviour is unconstrained:
`doctorReply round context` is `talk_to_agent`; `patientLLM round attempt`,
`scoreLLM round attempt`, `stopLLM round attempt` and `qualLLM attempt` are
the reasoning-service calls of the patient agent, the scoring engine, the
stop detector and the report generator; `patientRand round` feeds
`random.choice`; `clock` abstracts `datetime.now().isoformat()`. -/
structure SessionOracles where
  doctorReply : Nat → String → String
  patientLLM : Nat → Nat → Option String
  patientRand : Nat → Nat
  scoreLLM : Nat → Nat → Option RoundEvaluation
  stopLLM : Nat → Nat → Option StopDecision
  qualLLM : Nat → Option QualitativeAnalysis
  clock : Nat → String

/-- The mutable state of judge.py's round loop: the session's turn list and
round counter, the accumulated `round_evaluations`, the outcome fields set on
a stop, and the patient agent (whose memory grows every round). -/
structure LoopState where
  turns : List DialogueTurn
  total_rounds : Nat
  round_evaluations : List RoundEvaluation
  final_outcome : Option String
  stop_reason : Option String
  patient : PatientAgent
deriving Repr

/-- One iteration of judge.py's round loop (lines 267-371): doctor turn,
patient turn, per-round evaluation (attached to the patient turn), stop
check overwriting the evaluation's stop fields; returns the new state and
whether the loop `break`s. A fatal error from the scoring engine or stop
detector propagates. -/
def runOneRound (o : SessionOracles) (cfg : MedicalJudgeConfig)
    (clinical_info : PatientClinicalInfo) (max_rounds : Int) (round_num : Nat)
    (st : LoopState) : Except String (LoopState × Bool) :=
  let doctor_context := build_doctor_context clinical_info st.turns
  let doctor_message := o.doctorReply round_num doctor_context
  let doctor_turn : DialogueTurn :=
    ⟨st.turns.length + 1, .doctor, doctor_message, o.clock st.turns.length, none⟩
  let turns1 := st.turns ++ [doctor_turn]
  let pr := st.patient.respond (o.patientLLM round_num) (o.patientRand round_num)
    doctor_message
  let patient_response := pr.1
  let patient1 := pr.2
  let patient_turn : DialogueTurn :=
    ⟨turns1.length + 1, .patient, patient_response, o.clock turns1.length, none⟩
  let turns2 := turns1 ++ [patient_turn]
  let dialogue_history := build_dialogue_transcript turns2
  match (evaluate_round (o.scoreLLM round_num) cfg.judge_max_retries
      cfg.judge_retry_delay round_num doctor_message patient_response
      dialogue_history max_rounds).1 with
  | .error e => .error e
  | .ok evaluation =>
    match (StopConditionDetector.should_stop (o.stopLLM round_num)
        cfg.judge_max_retries cfg.judge_retry_delay round_num patient_response
        dialogue_history max_rounds).1 with
    | .error e => .error e
    | .ok sd =>
      let evaluation2 := { evaluation with should_stop := sd.1, stop_reason := sd.2 }
      let st2 : LoopState :=
        { turns := turns1 ++ [{ patient_turn with round_evaluation := some evaluation2 }]
          total_rounds := round_num
          round_evaluations := st.round_evaluations ++ [evaluation2]
          final_outcome := if sd.1 then sd.2 else st.final_outcome
          stop_reason := if sd.1 then sd.2 else st.stop_reason
          patient := patient1 }
      .ok (st2, sd.1)

/-- judge.py's `for round_num in range(1, max_rounds + 1)` loop: `fuel`
iterations remain, `round_num` is the current round. -/
def roundLoop (o : SessionOracles) (cfg : MedicalJudgeConfig)
    (clinical_info : PatientClinicalInfo) (max_rounds : Int) :
    Nat → Nat → LoopState → Except String LoopState
  | 0, _, st => .ok st
  | fuel + 1, round_num, st =>
    match runOneRound o cfg clinical_info max_rounds round_num st with
    | .error e => .error e
    | .ok (st2, true) => .ok st2
    | .ok (st2, false) => roundLoop o cfg clinical_info max_rounds fuel (round_num + 1) st2

/-- Python's `x or "default"` on an optional string: `None` and `""` both
fall through to the default. -/
def orElseStr (x : Option String) (default : String) : String :=
  match x with
  | some s => if s = "" then default else s
  | none => default

/-- judge.py `MedicalJudge.run_dialogue_session` (lines 254-388): the round
loop from a fresh session and a fresh patient agent, then the final report.
Persona construction (`construct_patient_persona`, LLM-driven and — as
shipped — failing its own pydantic models, see the C6/C8 analysis below) is
upstream of this function; its products, the clinical info and the patient
system prompt, are taken as inputs here. `session_id` stands for the
generated `uuid4`. -/
def run_dialogue_session (o : SessionOracles) (cfg : MedicalJudgeConfig)
    (session_id persona_id doctor_url system_prompt : String)
    (clinical_info : PatientClinicalInfo)
    (patient_max_retries patient_retry_delay : Nat) (max_rounds : Int) :
    Except String (DialogueSession × PerformanceReport) :=
  let patient0 : PatientAgent := ⟨system_prompt, patient_max_retries, patient_retry_delay, []⟩
  let st0 : LoopState := ⟨[], 0, [], none, none, patient0⟩
  match roundLoop o cfg clinical_info max_rounds max_rounds.toNat 1 st0 with
  | .error e => .error e
  | .ok st =>
    let dialogue_transcript := build_dialogue_transcript st.turns
    match (generate_report o.qualLLM cfg.judge_max_retries cfg.judge_retry_delay
        session_id (orElseStr st.final_outcome "max_rounds_reached")
        st.round_evaluations dialogue_transcript).1 with
    | .error e => .error e
    | .ok report =>
      .ok ({ session_id := session_id
             persona_id := persona_id
             doctor_agent_url := doctor_url
             start_time := o.clock 0
             end_time := some (o.clock (st.turns.length + 1))
             turns := st.turns
             total_rounds := st.total_rounds
             final_outcome := st.final_outcome
             stop_reason := st.stop_reason }, report)

/-! ## judge.py request validation -/

/-- A value of the `EvalRequest.config` dict, as far as validation looks at
it: a TOML/JSON scalar string, an integer, or a list of strings. -/
inductive ConfigValue where
  | str (s : String)
  | int (n : Int)
  | strList (l : List String)
deriving DecidableEq, Repr

/-- Python `int(value)` as `validate_request` applies it to
`config["max_rounds"]`: an int passes through, a string is parsed (with
surrounding whitespace ignored), a list raises TypeError. -/
def pyInt : ConfigValue → Option Int
  | .int n => some n
  | .str s => s.trim.toInt?
  | .strList _ => none

/-- The inbound `EvalRequest` as `validate_request` reads it: the role keys
of `participants` and the `config` dict. -/
structure EvalRequest where
  participants : List String
  config : List (String × ConfigValue)
deriving DecidableEq, Repr

def lookupConfig (config : List (String × ConfigValue)) (key : String) :
    Option ConfigValue :=
  (config.find? (fun kv => kv.1 = key)).map (fun kv => kv.2)

def required_roles : List String := ["doctor"]

def required_config_keys : List String := ["persona_ids", "max_rounds"]

/-- judge.py `MedicalJudge.validate_request`: missing roles, then missing
config keys, then `int(config["max_rounds"])`; nothing else is checked —
in particular the persona ids are not parsed here. -/
def validate_request (request : EvalRequest) : Bool × String :=
  match required_roles.filter (fun r => !(request.participants.contains r)) with
  | mr :: mrs =>
    (false, "Missing roles: " ++ String.intercalate ", " (mr :: mrs))
  | [] =>
    match required_config_keys.filter (fun k => (lookupConfig request.config k).isNone) with
    | mk :: mks =>
      (false, "Missing config keys: " ++ String.intercalate ", " (mk :: mks))
    | [] =>
      match (lookupConfig request.config "max_rounds").bind pyInt with
      | none => (false, "Can't parse max_rounds")
      | some _ => (true, "ok")

/-! ## pydantic construction checks (patient_constructor.py vs common.py)

pydantic v2 `BaseModel(**kwargs)` ignores unknown keyword arguments (default
`extra='ignore'`) but raises a ValidationError when a required field (one
without a default) is absent. The two constructions below are the keyword
sets patient_constructor.py passes, against the required fields the models
in common.py declare. -/

/-- Modelled from pydantic construction semantics: a `BaseModel(**kwargs)`
call validates only when every required field name is among the provided
keyword arguments. -/
def pydantic_required_ok (required provided : List String) : Bool :=
  required.all (fun field => provided.contains field)

/-- `common.py` `PatientClinicalInfo`: every field is required (none has a
default). -/
def PatientClinicalInfo_required_fields : List String :=
  ["age", "gender", "medical_case", "symptoms", "diagnosis",
   "recommended_treatment", "case_background"]

/-- The keyword arguments `PatientConstructor._derive_clinical_info`
(patient_constructor.py lines 281-291) passes to `PatientClinicalInfo(...)`. -/
def derive_clinical_info_kwargs : List String :=
  ["age", "gender", "medical_case", "diagnosis", "recommended_treatment",
   "treatment_risks", "treatment_benefits", "prognosis_with_treatment",
   "prognosis_without_treatment"]

/-- `common.py` `PatientPersona`: every field is required. -/
def PatientPersona_required_fields : List String :=
  ["persona_id", "mbti_type", "gender", "medical_case", "system_prompt"]

/-- The keyword arguments `PatientConstructor.construct_patient_persona`
(patient_constructor.py lines 89-95) passes to `PatientPersona(...)`. -/
def construct_patient_persona_kwargs : List String :=
  ["persona_id", "mbti_type", "gender", "medical_case", "character_description"]

/-! ## Concrete instances used by counterexamples and witnesses -/

/-- A reasoning-oracle decision claiming the round cap though below it;
nothing in should_stop filters it out. -/
def c3_bad_decision : StopDecision :=
  ⟨true, some "max_rounds_reached", "high", "decided to claim the cap"⟩

/-- A syntactically complete request whose persona id has an unknown MBTI
archetype. -/
def c7_request : EvalRequest :=
  ⟨["doctor"],
   [("persona_ids", ConfigValue.strList ["XXXX_M_PNEUMO"]),
    ("max_rounds", ConfigValue.int 5)]⟩

/-- A conforming stop decision: continue, no reason. -/
def c3_good_decision : StopDecision := ⟨false, none, "high", "still engaged"⟩

/-- C1 witness data: a single round scored (6, 8, 7). -/
def c1_eval : RoundEvaluation := ⟨1, 6, 8, 7, "receptive", false, none⟩

def c1_evals : List RoundEvaluation := [c1_eval]

def c1_qual : QualitativeAnalysis :=
  ⟨["clear opening"], ["rushed"], ["Round 1: rapport"], ["slow down"],
   ["ask concerns first"], "a solid single round"⟩

/-- The report generate_report produces for `c1_evals` and `c1_qual`. -/
def c1_report : PerformanceReport :=
  ⟨"s1", "max_rounds_reached", 1, c1_evals, 6, 8, 7, 71,
   ["clear opening"], ["rushed"], ["Round 1: rapport"], ["slow down"],
   ["ask concerns first"], "a solid single round"⟩

/-- C10 witness data: a request with max_rounds 0 and inert oracles. -/
def c10_request : EvalRequest :=
  ⟨["doctor"],
   [("persona_ids", ConfigValue.strList ["INTJ_M_PNEUMO"]),
    ("max_rounds", ConfigValue.int 0)]⟩

def c10_oracles : SessionOracles :=
  ⟨fun _ _ => "", fun _ _ => none, fun _ => 0, fun _ _ => none, fun _ _ => none,
   fun _ => none, fun _ => "t"⟩

def c10_ci : PatientClinicalInfo :=
  ⟨45, "male", "pneumothorax", "cough", "ptx", "surgery", "bg"⟩

/-- C2 witness data: one-round session with constant oracles. -/
def c2_eval : RoundEvaluation := ⟨0, 6, 8, 7, "steady", false, none⟩

def c2_qual : QualitativeAnalysis := ⟨["s"], ["w"], ["k"], ["i"], ["a"], "q"⟩

def c2_oracles : SessionOracles :=
  ⟨fun _ _ => "D", fun _ _ => some "P", fun _ => 0,
   fun _ _ => some c2_eval, fun _ _ => some c3_good_decision,
   fun _ => some c2_qual, fun _ => "t"⟩

def c2_ci : PatientClinicalInfo :=
  ⟨45, "male", "pneumothorax", "cough", "ptx", "surgery", "bg"⟩

/-- The round evaluation after the round number is force-set and the stop
detector's short-circuit overwrites the stop fields. -/
def c2_eval2 : RoundEvaluation := ⟨1, 6, 8, 7, "steady", true, some "max_rounds_reached"⟩

def c2_session : DialogueSession :=
  ⟨"sid", "pid", "url", "t", some "t",
   [⟨1, .doctor, "D", "t", none⟩, ⟨2, .patient, "P", "t", some c2_eval2⟩],
   1, some "max_rounds_reached", some "max_rounds_reached"⟩

def c2_report : PerformanceReport :=
  ⟨"sid", "max_rounds_reached", 1, [c2_eval2], 6, 8, 7, 71,
   ["s"], ["w"], ["k"], ["i"], ["a"], "q"⟩

/-- The sleep durations an exhausted retry loop performs: one sleep after
every attempt but the last, the sleep after 0-based attempt `i` lasting
`retry_delay * 2 ^ i`. -/
def backoffDelays (retry_delay attempts : Nat) : List Nat :=
  (List.range (attempts - 1)).map (fun i => retry_delay * 2 ^ i)

/-- What patient_agent.py counts as a failed attempt: a raised exception
(`none`) or returned content whose strip is empty. -/
def attemptFails : Option String → Bool
  | none => true
  | some content => (pyStrip content).length == 0

/-- Decidable check of C2's turn-structure invariant from index `i` on: the
j-th turn (0-based, counting from `i`) carries `turn_number = i + j + 1`
(contiguous, 1-based when `i = 0`) and the speakers strictly alternate,
doctor first on even absolute positions. -/
def checkTurns : Nat → List DialogueTurn → Bool
  | _, [] => true
  | i, turn :: rest =>
    (turn.turn_number == i + 1) &&
    (turn.speaker == (if i % 2 == 0 then Speaker.doctor else Speaker.patient)) &&
    checkTurns (i + 1) rest


/-! ## Helper lemmas -/

theorem retryAux_allFail {α : Type} (b : Nat) :
    ∀ (r a : Nat), retryAux (fun _ => (none : Option α)) b a r =
      (none, ⟨r, (List.range' a (r - 1)).map (fun i => b * 2 ^ i)⟩) := by
  intro r
  induction r with
  | zero => intro a; rfl
  | succ r ih =>
    intro a
    rw [retryAux]
    rcases Nat.eq_zero_or_pos r with hr | hr
    · subst hr; rfl
    · rw [if_neg (by omega)]
      rw [ih (a + 1)]
      obtain ⟨r', rfl⟩ := Nat.exists_eq_add_of_lt hr
      simp [List.range'_succ]

theorem retryLoop_allFail {α : Type} (N b : Nat) :
    retryLoop (fun _ => (none : Option α)) N b = (none, ⟨N, backoffDelays b N⟩) := by
  unfold retryLoop backoffDelays
  rw [retryAux_allFail, List.range_eq_range']

theorem retryAux_some_of {α : Type} (oracle : Nat → Option α) (b : Nat) :
    ∀ (r a : Nat) (x : α), (retryAux oracle b a r).1 = some x → ∃ i, oracle i = some x
  | 0, a, x => by
    intro h
    simp [retryAux] at h
  | r + 1, a, x => by
    intro h
    unfold retryAux at h
    cases ho : oracle a with
    | some y =>
      rw [ho] at h
      simp at h
      exact ⟨a, by rw [ho, h]⟩
    | none =>
      rw [ho] at h
      by_cases hr : r = 0
      · subst hr
        simp at h
      · rw [if_neg hr] at h
        exact retryAux_some_of oracle b r (a + 1) x h

theorem retryLoop_some_of {α : Type} (oracle : Nat → Option α) (N b : Nat) (x : α)
    (h : (retryLoop oracle N b).1 = some x) : ∃ i, oracle i = some x :=
  retryAux_some_of oracle b N 0 x h

theorem respondAttempts_allFail (oracle : Nat → Option String)
    (hor : ∀ i, attemptFails (oracle i) = true) :
    ∀ (k a : Nat) (acc : Option String),
      (∀ s, acc = some s → (pyStrip s).length = 0) →
      ∀ s, respondAttempts oracle a k acc = some s → (pyStrip s).length = 0 := by
  intro k
  induction k with
  | zero =>
    intro a acc hacc s h
    exact hacc s h
  | succ k ih =>
    intro a acc hacc s h
    rw [respondAttempts] at h
    cases ho : oracle a with
    | some content =>
      rw [ho] at h
      have hc : (pyStrip content).length = 0 := by
        have hi := hor a
        rw [ho] at hi
        simpa [attemptFails] using hi
      simp only [hc, gt_iff_lt, Nat.lt_irrefl, if_false] at h
      exact ih (a + 1) (some content) (fun s hs => by cases hs; exact hc) s h
    | none =>
      rw [ho] at h
      exact ih (a + 1) acc hacc s h

theorem fallback_message_ok (k : Nat) :
    FALLBACK_MESSAGES.getD (k % FALLBACK_MESSAGES.length) "" ∈ FALLBACK_MESSAGES ∧
    FALLBACK_MESSAGES.getD (k % FALLBACK_MESSAGES.length) "" ≠ "" := by
  have hlt : k % FALLBACK_MESSAGES.length < FALLBACK_MESSAGES.length :=
    Nat.mod_lt _ (by decide)
  have hmem : FALLBACK_MESSAGES.getD (k % FALLBACK_MESSAGES.length) "" ∈ FALLBACK_MESSAGES := by
    rw [List.getD_eq_getElem _ _ hlt]
    exact List.getElem_mem hlt
  have hall : ∀ x ∈ FALLBACK_MESSAGES, x ≠ "" := by decide
  exact ⟨hmem, hall _ hmem⟩

/-- C7 (amended): `validate_request` rejects exactly a missing required
role, a missing required config key, and an unparsable `max_rounds` — each
synchronously, with a specific reason, before any session starts; persona-id
format and archetype/gender/case validity are NOT checked there (its verdict
is independent of the persona ids; `parse_persona_id` only raises later,
during persona construction inside the session run). -/
theorem validate_request_acceptance (request : EvalRequest) :
    (validate_request request).1 = true ↔
      (request.participants.contains "doctor" = true ∧
       (lookupConfig request.config "persona_ids").isSome = true ∧
       ((lookupConfig request.config "max_rounds").bind pyInt).isSome = true) := by
  unfold validate_request
  cases hd : request.participants.contains "doctor" with
  | false =>
    simp at hd
    simp [required_roles, required_config_keys, hd]
  | true =>
    simp at hd
    cases hp : lookupConfig request.config "persona_ids" with
    | none => simp [required_roles, required_config_keys, hd, hp]
    | some vp =>
      cases hm : lookupConfig request.config "max_rounds" with
      | none => simp [required_roles, required_config_keys, hd, hp, hm]
      | some vm =>
        cases hb : pyInt vm with
        | none => simp [required_roles, required_config_keys, hd, hp, hm, hb]
        | some n => simp [required_roles, required_config_keys, hd, hp, hm, hb]

theorem checkTurns_append (ts us : List DialogueTurn) :
    ∀ i, checkTurns i (ts ++ us) = (checkTurns i ts && checkTurns (i + ts.length) us) := by
  induction ts with
  | nil => intro i; simp [checkTurns]
  | cons t ts ih =>
    intro i
    simp only [List.cons_append, checkTurns, List.length_cons, List.append_eq]
    rw [ih (i + 1)]
    have harith : i + 1 + ts.length = i + (ts.length + 1) := by omega
    rw [harith]
    simp [Bool.and_assoc]

theorem checkTurns_append_pair (ts : List DialogueTurn) (d p : DialogueTurn)
    (hts : checkTurns 0 ts = true) (heven : ts.length % 2 = 0)
    (hd1 : d.turn_number = ts.length + 1) (hd2 : d.speaker = Speaker.doctor)
    (hp1 : p.turn_number = ts.length + 2) (hp2 : p.speaker = Speaker.patient) :
    checkTurns 0 (ts ++ [d, p]) = true := by
  rw [checkTurns_append, hts]
  simp only [Bool.true_and, checkTurns, Bool.and_true]
  have hodd : (ts.length + 1) % 2 = 1 := by omega
  rw [hd1, hd2, hp1, hp2]
  simp [heven, hodd, beq_iff_eq]
  exact ⟨rfl, rfl⟩

theorem runOneRound_ok_invariant (o : SessionOracles) (cfg : MedicalJudgeConfig)
    (clinical_info : PatientClinicalInfo) (max_rounds : Int) (round_num : Nat)
    (st st2 : LoopState) (stopped : Bool)
    (h : runOneRound o cfg clinical_info max_rounds round_num st = .ok (st2, stopped))
    (hlen : st.turns.length = 2 * st.total_rounds)
    (hck : checkTurns 0 st.turns = true)
    (hrn : round_num = st.total_rounds + 1) :
    st2.turns.length = 2 * st2.total_rounds ∧ checkTurns 0 st2.turns = true ∧
    st2.total_rounds = round_num := by
  unfold runOneRound at h
  dsimp only at h
  split at h
  · exact absurd h (by simp)
  split at h
  · exact absurd h (by simp)
  rw [Except.ok.injEq, Prod.mk.injEq] at h
  obtain ⟨hst2, hstop⟩ := h
  subst hst2
  dsimp only
  have heven : st.turns.length % 2 = 0 := by omega
  refine ⟨?_, ?_, rfl⟩
  · simp only [List.length_append, List.length_cons, List.length_nil]
    omega
  · rw [List.append_assoc]
    exact checkTurns_append_pair st.turns _ _ hck heven rfl rfl
      (by simp only [List.length_append, List.length_cons, List.length_nil]) rfl

theorem roundLoop_invariant (o : SessionOracles) (cfg : MedicalJudgeConfig)
    (clinical_info : PatientClinicalInfo) (max_rounds : Int) :
    ∀ (fuel round_num : Nat) (st st2 : LoopState),
      roundLoop o cfg clinical_info max_rounds fuel round_num st = .ok st2 →
      st.turns.length = 2 * st.total_rounds →
      checkTurns 0 st.turns = true →
      round_num = st.total_rounds + 1 →
      st2.turns.length = 2 * st2.total_rounds ∧ checkTurns 0 st2.turns = true := by
  intro fuel
  induction fuel with
  | zero =>
    intro round_num st st2 h hlen hck hrn
    rw [roundLoop] at h
    cases h
    exact ⟨hlen, hck⟩
  | succ fuel ih =>
    intro round_num st st2 h hlen hck hrn
    rw [roundLoop] at h
    split at h
    · exact absurd h (by simp)
    · rename_i st1 heq
      cases h
      have hinv := runOneRound_ok_invariant o cfg clinical_info max_rounds round_num
        st st2 true heq hlen hck hrn
      exact ⟨hinv.1, hinv.2.1⟩
    · rename_i st1 heq
      have hinv := runOneRound_ok_invariant o cfg clinical_info max_rounds round_num
        st st1 false heq hlen hck hrn
      exact ih (round_num + 1) st1 st2 h hinv.1 hinv.2.1 (by rw [hinv.2.2])

theorem validate_request_ok_eq (request : EvalRequest)
    (hd : request.participants.contains "doctor" = true)
    (hp : (lookupConfig request.config "persona_ids").isSome = true)
    (hb : ((lookupConfig request.config "max_rounds").bind pyInt).isSome = true) :
    validate_request request = (true, "ok") := by
  unfold validate_request
  simp at hd
  cases hpv : lookupConfig request.config "persona_ids" with
  | none => rw [hpv] at hp; simp at hp
  | some vp =>
    cases hmv : lookupConfig request.config "max_rounds" with
    | none => rw [hmv] at hb; simp at hb
    | some vm =>
      cases hbv : pyInt vm with
      | none => rw [hmv] at hb; simp [hbv] at hb
      | some n => simp [required_roles, required_config_keys, hd, hpv, hmv, hbv]

/-! ## Claim theorems -/

/-- C1: for every nonempty round-evaluation list, generate_report's overall
scores are the arithmetic means of the per-round empathy, persuasion and
safety scores, and aggregate_score is exactly
empathy_mean * 3 + persuasion_mean * 4 + safety_mean * 3. -/
theorem generate_report_means_and_aggregate
    (oracle : Nat → Option QualitativeAnalysis) (N b : Nat)
    (session_id final_outcome dialogue_transcript : String)
    (round_evaluations : List RoundEvaluation) (r : PerformanceReport)
    (hne : round_evaluations ≠ [])
    (h : (generate_report oracle N b session_id final_outcome round_evaluations
      dialogue_transcript).1 = .ok r) :
    r.overall_empathy =
      ((round_evaluations.map (·.empathy_score)).sum) / (round_evaluations.length : ℚ) ∧
    r.overall_persuasion =
      ((round_evaluations.map (·.persuasion_score)).sum) / (round_evaluations.length : ℚ) ∧
    r.overall_safety =
      ((round_evaluations.map (·.safety_score)).sum) / (round_evaluations.length : ℚ) ∧
    r.aggregate_score =
      r.overall_empathy * 3 + r.overall_persuasion * 4 + r.overall_safety * 3 := by
  unfold generate_report at h
  dsimp only at h
  rw [if_neg (fun hc => hne (List.length_eq_zero.mp hc))] at h
  split at h
  · rename_i qualitative hq
    rw [Except.ok.injEq] at h
    subst h
    exact ⟨rfl, rfl, rfl, rfl⟩
  · exact absurd h (by simp)

/-- C2: every session returned by run_dialogue_session satisfies
len(turns) = 2 * total_rounds, and its turns strictly alternate starting
with a doctor turn and carry contiguous 1-based turn numbers (the latter
two checked by `checkTurns 0`). -/
theorem run_dialogue_session_turn_structure (o : SessionOracles)
    (cfg : MedicalJudgeConfig)
    (session_id persona_id doctor_url system_prompt : String)
    (clinical_info : PatientClinicalInfo) (pmr prd : Nat) (max_rounds : Int)
    (s : DialogueSession) (r : PerformanceReport)
    (h : run_dialogue_session o cfg session_id persona_id doctor_url system_prompt
      clinical_info pmr prd max_rounds = .ok (s, r)) :
    s.turns.length = 2 * s.total_rounds ∧ checkTurns 0 s.turns = true := by
  unfold run_dialogue_session at h
  dsimp only at h
  split at h
  · exact absurd h (by simp)
  rename_i st hloop
  split at h
  · exact absurd h (by simp)
  rename_i report hrep
  rw [Except.ok.injEq, Prod.mk.injEq] at h
  obtain ⟨hs, hr⟩ := h
  subst hs
  exact roundLoop_invariant o cfg clinical_info max_rounds max_rounds.toNat 1
    _ st hloop rfl rfl rfl

/-- C3 (counterexample): with a reasoning oracle whose decision carries
stop_reason "max_rounds_reached", should_stop at round 1 of 5 — strictly
below the cap — returns exactly that reason, so the classification stage
can emit it, contrary to the claim. -/
theorem should_stop_emits_max_rounds_reason_below_cap :
    (StopConditionDetector.should_stop (fun _ => some c3_bad_decision)
      5 3 1 "p" "h" 5).1 = Except.ok (true, some "max_rounds_reached") ∧
    (1 : Int) < 5 := by
  exact ⟨rfl, by decide⟩

/-- C3 (amended): for round_number < max_rounds, the stop reason should_stop
returns is taken verbatim from the oracle's decision, so it can be
"max_rounds_reached" only when the reasoning oracle itself emits that value
(which the prompt forbids but nothing validates): under the hypothesis that
the oracle never does, the classification stage never returns it; the rule
based short-circuit at round_number >= max_rounds remains the only other
producer of that reason. -/
theorem should_stop_below_cap_reason_from_oracle
    (oracle : Nat → Option StopDecision) (N b round_number : Nat)
    (patient_response dialogue_history : String) (max_rounds : Int)
    (stop : Bool) (reason : Option String)
    (hor : ∀ i d, oracle i = some d → d.stop_reason ≠ some "max_rounds_reached")
    (hlt : (round_number : Int) < max_rounds)
    (h : (StopConditionDetector.should_stop oracle N b round_number
      patient_response dialogue_history max_rounds).1 = .ok (stop, reason)) :
    reason ≠ some "max_rounds_reached" := by
  unfold StopConditionDetector.should_stop at h
  rw [if_neg (by omega)] at h
  split at h
  · rename_i d log heq
    dsimp only at h
    rw [Except.ok.injEq, Prod.mk.injEq] at h
    obtain ⟨hstop, hreason⟩ := h
    subst hreason
    have h1 : (retryLoop oracle N b).1 = some d := by rw [heq]
    obtain ⟨i, hi⟩ := retryLoop_some_of oracle N b d h1
    exact hor i d hi
  · exact absurd h (by simp)

/-- C4: against an always-failing reasoning service, the scoring engine, the
stop detector (below the round cap) and the report generator's qualitative
stage each invoke the oracle exactly max_retries times, sleep
retry_delay * 2 ^ attempt between consecutive attempts, and then raise
instead of fabricating a result. -/
theorem always_failing_service_retries_then_raises
    (N b round_number : Nat) (max_rounds : Int)
    (doctor_message patient_response dialogue_history : String)
    (final_outcome dialogue_transcript : String)
    (round_evaluations : List RoundEvaluation)
    (overall_empathy overall_persuasion overall_safety : ℚ)
    (hlt : (round_number : Int) < max_rounds) :
    evaluate_round (fun _ => none) N b round_number doctor_message
        patient_response dialogue_history max_rounds =
      (.error ("Failed to evaluate round " ++ toString round_number ++
        " after " ++ toString N ++ " attempts"), ⟨N, backoffDelays b N⟩) ∧
    StopConditionDetector.should_stop (fun _ => none) N b round_number
        patient_response dialogue_history max_rounds =
      (.error ("Failed to determine stop condition after " ++ toString N ++
        " attempts"), ⟨N, backoffDelays b N⟩) ∧
    generate_qualitative_analysis (fun _ => none) N b final_outcome
        round_evaluations dialogue_transcript overall_empathy
        overall_persuasion overall_safety =
      (.error ("Failed to generate qualitative analysis after " ++ toString N ++
        " attempts"), ⟨N, backoffDelays b N⟩) := by
  refine ⟨?_, ?_, ?_⟩
  · unfold evaluate_round
    rw [retryLoop_allFail]
  · unfold StopConditionDetector.should_stop
    rw [if_neg (by omega), retryLoop_allFail]
  · unfold generate_qualitative_analysis
    rw [retryLoop_allFail]

/-- C5: PatientAgent.respond always appends exactly one doctor-role entry
followed by one patient-role entry to the dialogue memory, and when every
reasoning-service attempt fails (raises or returns blank text) it still
returns a non-empty string drawn from FALLBACK_MESSAGES. -/
theorem respond_memory_and_fallback (pa : PatientAgent)
    (oracle : Nat → Option String) (rand_index : Nat) (doctor_message : String) :
    ((pa.respond oracle rand_index doctor_message).2.dialogue_history =
      pa.dialogue_history ++ [⟨"user", doctor_message⟩,
        ⟨"assistant", (pa.respond oracle rand_index doctor_message).1⟩]) ∧
    ((∀ i, attemptFails (oracle i) = true) →
      ((pa.respond oracle rand_index doctor_message).1 ∈ FALLBACK_MESSAGES ∧
       (pa.respond oracle rand_index doctor_message).1 ≠ "")) := by
  constructor
  · unfold PatientAgent.respond
    dsimp only
    rw [List.append_assoc]
    rfl
  · intro hor
    unfold PatientAgent.respond
    dsimp only
    cases hres : respondAttempts oracle 0 pa.max_retries none with
    | none => exact fallback_message_ok rand_index
    | some s =>
      have hs : (pyStrip s).length = 0 :=
        respondAttempts_allFail oracle hor pa.max_retries 0 none
          (fun s hs => by cases hs) s hres
      dsimp only
      rw [if_pos hs]
      exact fallback_message_ok rand_index

/-- C6 (code-bug evidence): the keyword arguments
`_derive_clinical_info` passes to `PatientClinicalInfo(...)` omit the
required fields `symptoms` and `case_background` of common.py's model, so
pydantic validation fails and no clinical info — hence no doctor context —
is ever produced by the shipped pipeline. -/
theorem derive_clinical_info_fails_validation :
    pydantic_required_ok PatientClinicalInfo_required_fields
      derive_clinical_info_kwargs = false := by
  decide

/-- C7 (counterexample): a request whose only persona id has an unknown MBTI
archetype passes validate_request with (True, "ok") — it is not rejected
before any session starts; parse_persona_id only raises later, during
persona construction. -/
theorem validate_request_accepts_unknown_archetype :
    validate_request c7_request = (true, "ok") ∧
    parse_persona_id "XXXX_M_PNEUMO" = .error "Invalid MBTI type: XXXX" := by
  exact ⟨by decide, by rfl⟩

/-- C8 (code-bug evidence): the keyword arguments
`construct_patient_persona` passes to `PatientPersona(...)` omit the
required field `system_prompt` of common.py's model, so pydantic validation
raises during persona construction and `run_dialogue_session` cannot reach
its round loop for any persona, including "INTJ_M_PNEUMO". -/
theorem construct_patient_persona_fails_validation :
    pydantic_required_ok PatientPersona_required_fields
      construct_patient_persona_kwargs = false := by
  decide

/-- C9: expanding a persona-id list containing the wildcard "all" yields
exactly the 64 ids of the 16 x 2 x 2 cross-product, duplicate-free. -/
theorem expand_persona_ids_wildcard (persona_ids : List String)
    (h : persona_ids.contains "all" = true) :
    (expand_persona_ids persona_ids).length = 64 ∧
    (expand_persona_ids persona_ids).Nodup := by
  unfold expand_persona_ids
  rw [if_pos h]
  exact ⟨by rfl, by decide⟩

/-- C10: a request whose max_rounds parses to an integer <= 0 is accepted by
validate_request as (True, "ok"); the round loop then executes zero rounds
and generate_report raises ZeroDivisionError averaging over the empty
round-evaluation list — max_rounds >= 1 is nowhere enforced. -/
theorem nonpositive_max_rounds_accepted_then_zero_division
    (request : EvalRequest) (n : Int) (o : SessionOracles)
    (cfg : MedicalJudgeConfig)
    (session_id persona_id doctor_url system_prompt : String)
    (clinical_info : PatientClinicalInfo) (pmr prd : Nat)
    (hdoc : request.participants.contains "doctor" = true)
    (hpid : (lookupConfig request.config "persona_ids").isSome = true)
    (hmr : (lookupConfig request.config "max_rounds").bind pyInt = some n)
    (hn : n ≤ 0) :
    validate_request request = (true, "ok") ∧
    run_dialogue_session o cfg session_id persona_id doctor_url system_prompt
      clinical_info pmr prd n = .error "ZeroDivisionError: division by zero" := by
  constructor
  · exact validate_request_ok_eq request hdoc hpid (by rw [hmr]; rfl)
  · unfold run_dialogue_session
    have h0 : n.toNat = 0 := Int.toNat_of_nonpos hn
    rw [h0]
    rfl

/-! ## Witnesses -/

/-- C1 witness: one round scored (6, 8, 7) gives means (6, 8, 7) and
aggregate 6*3 + 8*4 + 7*3 = 71. -/
theorem generate_report_means_and_aggregate_witness :
    (c1_evals ≠ ([] : List RoundEvaluation)) ∧
    ((generate_report (fun _ => some c1_qual) 5 3 "s1" "max_rounds_reached"
        c1_evals "DOCTOR: hello").1 = Except.ok c1_report) ∧
    (c1_report.overall_empathy =
        ((c1_evals.map (·.empathy_score)).sum) / (c1_evals.length : ℚ) ∧
     c1_report.overall_persuasion =
        ((c1_evals.map (·.persuasion_score)).sum) / (c1_evals.length : ℚ) ∧
     c1_report.overall_safety =
        ((c1_evals.map (·.safety_score)).sum) / (c1_evals.length : ℚ) ∧
     c1_report.aggregate_score =
        c1_report.overall_empathy * 3 + c1_report.overall_persuasion * 4 +
          c1_report.overall_safety * 3) := by
  have hne : c1_evals ≠ ([] : List RoundEvaluation) := by simp [c1_evals]
  have h : (generate_report (fun _ => some c1_qual) 5 3 "s1" "max_rounds_reached"
      c1_evals "DOCTOR: hello").1 = Except.ok c1_report := by
    simp only [generate_report, generate_qualitative_analysis, retryLoop, retryAux,
      c1_evals, c1_eval, c1_qual, c1_report]
    norm_num
  exact ⟨hne, h,
    generate_report_means_and_aggregate (fun _ => some c1_qual) 5 3 "s1"
      "max_rounds_reached" "DOCTOR: hello" c1_evals c1_report hne h⟩

/-- C2 witness: with max_rounds 1 and benign constant oracles the run
returns a session of exactly 2 turns for 1 round, alternating
doctor-then-patient with turn numbers 1, 2. -/
theorem run_dialogue_session_turn_structure_witness :
    (run_dialogue_session c2_oracles ⟨5, 3⟩ "sid" "pid" "url" "sp" c2_ci 3 2 1 =
      Except.ok (c2_session, c2_report)) ∧
    (c2_session.turns.length = 2 * c2_session.total_rounds ∧
     checkTurns 0 c2_session.turns = true) := by
  have h : run_dialogue_session c2_oracles ⟨5, 3⟩ "sid" "pid" "url" "sp" c2_ci 3 2 1 =
      Except.ok (c2_session, c2_report) := by
    simp only [run_dialogue_session, roundLoop, runOneRound, evaluate_round,
      StopConditionDetector.should_stop, generate_report,
      generate_qualitative_analysis, retryLoop, retryAux, PatientAgent.respond,
      respondAttempts, orElseStr, pyStrip, c2_oracles, c2_ci, c2_eval, c2_qual,
      c2_session, c2_report, c2_eval2, c3_good_decision]
    norm_num
    intro hx
    exact absurd (hx 'P' (by decide)) (by decide)
  exact ⟨h, run_dialogue_session_turn_structure c2_oracles ⟨5, 3⟩ "sid" "pid"
    "url" "sp" c2_ci 3 2 1 c2_session c2_report h⟩

/-- C3 witness: a conforming oracle (stop_reason null) at round 1 of 5 — the
detector returns the oracle's reason verbatim, which is not
"max_rounds_reached". -/
theorem should_stop_below_cap_reason_witness :
    (∀ i d, (fun _ : Nat => some c3_good_decision) i = some d →
      d.stop_reason ≠ some "max_rounds_reached") ∧
    ((1 : Int) < 5) ∧
    ((StopConditionDetector.should_stop (fun _ : Nat => some c3_good_decision)
        5 3 1 "p" "h" 5).1 = Except.ok (false, none)) ∧
    ((none : Option String) ≠ some "max_rounds_reached") := by
  have hor : ∀ i d, (fun _ : Nat => some c3_good_decision) i = some d →
      d.stop_reason ≠ some "max_rounds_reached" := by
    intro i d hd
    injection hd with hd
    subst hd
    decide
  have h : (StopConditionDetector.should_stop (fun _ : Nat => some c3_good_decision)
      5 3 1 "p" "h" 5).1 = Except.ok (false, none) := by rfl
  exact ⟨hor, by decide, h,
    should_stop_below_cap_reason_from_oracle (fun _ : Nat => some c3_good_decision)
      5 3 1 "p" "h" 5 false none hor (by decide) h⟩

/-- C4 witness: max_retries 3 and base delay 2 against the always-failing
oracle: three calls, sleeps [2, 4], then the stage-specific error. -/
theorem always_failing_service_witness :
    ((1 : Int) < 5) ∧
    (evaluate_round (fun _ => none) 3 2 1 "d" "p" "h" 5 =
      (.error ("Failed to evaluate round " ++ toString (1 : Nat) ++ " after " ++
        toString (3 : Nat) ++ " attempts"), ⟨3, backoffDelays 2 3⟩) ∧
     StopConditionDetector.should_stop (fun _ => none) 3 2 1 "p" "h" 5 =
      (.error ("Failed to determine stop condition after " ++ toString (3 : Nat) ++
        " attempts"), ⟨3, backoffDelays 2 3⟩) ∧
     generate_qualitative_analysis (fun _ => none) 3 2 "o" [] "t" 0 0 0 =
      (.error ("Failed to generate qualitative analysis after " ++ toString (3 : Nat) ++
        " attempts"), ⟨3, backoffDelays 2 3⟩)) :=
  ⟨by decide,
   always_failing_service_retries_then_raises 3 2 1 5 "d" "p" "h" "o" "t" [] 0 0 0
     (by decide)⟩

/-- C9 witness: the list ["all"] expands to the 64 distinct persona ids. -/
theorem expand_persona_ids_wildcard_witness :
    ((["all"] : List String).contains "all" = true) ∧
    ((expand_persona_ids ["all"]).length = 64 ∧ (expand_persona_ids ["all"]).Nodup) :=
  ⟨by decide, expand_persona_ids_wildcard ["all"] (by decide)⟩

/-- C10 witness: max_rounds "0" passes validation and the session run dies
with a division by zero in report generation. -/
theorem nonpositive_max_rounds_witness :
    (c10_request.participants.contains "doctor" = true) ∧
    ((lookupConfig c10_request.config "persona_ids").isSome = true) ∧
    ((lookupConfig c10_request.config "max_rounds").bind pyInt = some 0) ∧
    ((0 : Int) ≤ 0) ∧
    (validate_request c10_request = (true, "ok") ∧
     run_dialogue_session c10_oracles ⟨5, 3⟩ "sid" "pid" "url" "sp" c10_ci 3 2 0 =
       .error "ZeroDivisionError: division by zero") :=
  ⟨by decide, by decide, by decide, by decide,
   nonpositive_max_rounds_accepted_then_zero_division c10_request 0 c10_oracles
     ⟨5, 3⟩ "sid" "pid" "url" "sp" c10_ci 3 2 (by decide) (by decide) (by decide)
     (by decide)⟩

end OSEC
